import Mathlib

/-!
Formal model of the Terraform-plan-to-Markdown converter
(`src/terraform/tf_out_to_md.py`).

The converter manipulates loosely typed JSON values.  These are embedded
as the inductive `Value` below.  Modelling notes:

* JSON numbers are modelled as integers (no claim depends on
  floating-point values).
* The Python `==` on parsed JSON values is modelled by `vbeq`; mappings are
  compared key-wise (Python dict equality ignores entry order).  The
  cross-type coercions of Python (`True == 1`) are not modelled: JSON
  booleans and numbers are kept distinct, as they are distinct in every
  plan document.
* The Python `str.strip()` is modelled by `pyStrip` and `", ".join(...)`
  by `joinSep ", "`.
* Mappings (`dict`) are modelled as association lists in document order;
  `dget` is `dict.get` returning the first matching entry.
-/

namespace TfPlan

/-- A loosely typed JSON value, as handled by the Python converter. -/
inductive Value where
  | null
  | bool (b : Bool)
  | num (n : Int)
  | str (s : String)
  | list (items : List Value)
  | dict (entries : List (String × Value))

/-- Mapping lookup `d.get(key)`: the first entry with the given key. -/
def dget : List (String × Value) → String → Option Value
  | [], _ => none
  | (k, v) :: rest, key => if k = key then some v else dget rest key

/-- Python truthiness of a value (`bool(v)`). -/
def truthy : Value → Bool
  | .null => false
  | .bool b => b
  | .num n => n ≠ 0
  | .str s => s ≠ ""
  | .list items => ¬items.isEmpty
  | .dict entries => ¬entries.isEmpty

/-- Python `v is None` for a parsed JSON value. -/
def isNull : Value → Bool
  | .null => true
  | _ => false

mutual

/-- Python `==` on parsed JSON values.  Mappings compare equal when they
have the same key set and pointwise equal values, regardless of entry
order. -/
def vbeq : Value → Value → Bool
  | .null, .null => true
  | .bool a, .bool b => a == b
  | .num a, .num b => a == b
  | .str a, .str b => a == b
  | .list xs, .list ys => vbeqList xs ys
  | .dict xs, .dict ys =>
      dictEntriesLe xs ys && ys.all (fun kv => (dget xs kv.1).isSome)
  | _, _ => false

/-- Pointwise Python `==` on lists of values. -/
def vbeqList : List Value → List Value → Bool
  | [], [] => true
  | x :: xs, y :: ys => vbeq x y && vbeqList xs ys
  | _, _ => false

/-- Every entry of the first mapping is present in the second with an
equal value. -/
def dictEntriesLe : List (String × Value) → List (String × Value) → Bool
  | [], _ => true
  | (k, v) :: rest, ys =>
      (match dget ys k with
       | some w => vbeq v w
       | none => false) && dictEntriesLe rest ys

end

/-- Python `s.strip()`: remove leading and trailing whitespace. -/
def pyStrip (s : String) : String :=
  ⟨List.reverse (List.dropWhile Char.isWhitespace
    (List.reverse (List.dropWhile Char.isWhitespace s.data)))⟩

/-- Python `sep.join(parts)`. -/
def joinSep (sep : String) : List String → String
  | [] => ""
  | [x] => x
  | x :: rest => x ++ sep ++ joinSep sep rest

mutual

/-- Function `format_value` (tf_out_to_md.py lines 31-58): render a value for
display in markdown. -/
def format_value (value : Value) (indent : Nat) : String :=
  let pref := String.join (List.replicate indent "  ")
  match value with
  | .null => ""
  | .bool b => pref ++ "`" ++ (if b then "true" else "false") ++ "`"
  | .num n => pref ++ "`" ++ toString n ++ "`"
  | .str s =>
      if s = "" then ""
      else if s.length > 100 then pref ++ "`" ++ (s.take 97) ++ "...`"
      else pref ++ "`" ++ s ++ "`"
  | .list items =>
      if items.isEmpty then ""
      else if items.length > 5 then
        pref ++ "List with " ++ toString items.length ++ " items"
      else pref ++ joinSep ", " (formatItems items)
  | .dict entries =>
      if entries.isEmpty then ""
      else pref ++ "Object with " ++ toString entries.length ++ " properties"

/-- The element-wise recursion of `format_value` on a sequence:
`[format_value(v, 0).strip() for v in value]`. -/
def formatItems : List Value → List String
  | [] => []
  | v :: rest => pyStrip (format_value v 0) :: formatItems rest

end

/-- The "absent" test of `format_change`: `v is None or (isinstance(v,
(list, dict)) and not v)`. -/
def isAbsent : Value → Bool
  | .null => true
  | .list items => items.isEmpty
  | .dict entries => entries.isEmpty
  | _ => false

/-- Function `format_change` (tf_out_to_md.py lines 61-89): display lines for one
attribute before/after pair. -/
def format_change (before after : Value) (key : String) (indent : Nat) : List String :=
  let pref := String.join (List.replicate indent "  ")
  if isAbsent before && isAbsent after then []
  else if isAbsent after then []
  else if isAbsent before then
    let after_str := pyStrip (format_value after 0)
    if after_str ≠ "" then [pref ++ "- **" ++ key ++ "**: " ++ after_str] else []
  else if vbeq before after = false then
    let before_str := pyStrip (format_value before 0)
    let after_str := pyStrip (format_value after 0)
    if before_str ≠ "" ∨ after_str ≠ "" then
      if before_str ≠ "" ∧ after_str ≠ "" then
        [pref ++ "- **" ++ key ++ "**: ~~" ++ before_str ++ "~~ → " ++ after_str]
      else if after_str ≠ "" then [pref ++ "- **" ++ key ++ "**: " ++ after_str]
      else []
    else []
  else []

/-- Function `get_action_emoji` (tf_out_to_md.py lines 15-28): label for a list of
actions attached to an output change. -/
def get_action_emoji (actions : List String) : String :=
  if "create" ∈ actions then "➕ **CREATE**"
  else if "delete" ∈ actions then "🗑️ **DELETE**"
  else if "update" ∈ actions then "🔄 **UPDATE**"
  else if "replace" ∈ actions ∨ ("delete" ∈ actions ∧ "create" ∈ actions) then "🔁 **REPLACE**"
  else if "read" ∈ actions then "📖 **READ**"
  else "⚪ **NO-OP**"

/-- The seven summary buckets of `convert_plan_to_markdown`. -/
inductive Bucket where
  | replace
  | create
  | delete
  | update_tags_only
  | update
  | read
  | noop
deriving DecidableEq

/-- The bucket-assignment chain of the summary-count loop in
`convert_plan_to_markdown` (tf_out_to_md.py lines 278-296). -/
def classify (actions : List String) (tags_only : Bool) : Bucket :=
  if "create" ∈ actions ∧ "delete" ∈ actions then .replace
  else if "create" ∈ actions then .create
  else if "delete" ∈ actions then .delete
  else if "update" ∈ actions then
    (if tags_only then .update_tags_only else .update)
  else if "read" ∈ actions then .read
  else .noop

/-- The `change` object of a full-document resource-change entry. -/
structure ShowChange where
  actions : List String
  before : Value
  after : Value
  after_unknown : List (String × Value)

/-- A full-document resource-change entry, with the `tags_only` mark the
parser writes into it. -/
structure ShowRC where
  address : String
  change : ShowChange
  tags_only : Bool

/-- The set of changed attribute keys computed by
`parse_terraform_show_json` (tf_out_to_md.py lines 686-699): keys of the
union of `before` and `after` whose values differ, skipping keys whose
value in a non-empty `after_unknown` is truthy.  Each key appears once. -/
def changedAttrs (b a au : List (String × Value)) : List String :=
  ((b.map Prod.fst ++ a.map Prod.fst).dedup).filter (fun k =>
    !((!au.isEmpty) && (match dget au k with
                        | some v => truthy v
                        | none => false)) &&
    !vbeq ((dget b k).getD .null) ((dget a k).getD .null))

/-- The `tags_only` computation of `parse_terraform_show_json`
(tf_out_to_md.py lines 674-709) for one resource change. -/
def computeTagsOnly (actions : List String) (before after : Value)
    (au : List (String × Value)) : Bool :=
  if "update" ∈ actions ∧ "create" ∉ actions ∧ "delete" ∉ actions then
    match before, after with
    | .dict b, .dict a =>
        let changed := changedAttrs b a au
        !changed.isEmpty && changed.all (fun k => k == "tags" || k == "tags_all")
    | _, _ => false
  else false

/-- The per-record marking step of `parse_terraform_show_json`. -/
def markTagsOnly (rc : ShowRC) : ShowRC :=
  { rc with tags_only := (computeTagsOnly rc.change.actions rc.change.before
      rc.change.after rc.change.after_unknown) }

/-- Function `parse_terraform_show_json` (tf_out_to_md.py lines 666-711), viewed
on the `resource_changes` sequence it rewrites. -/
def parse_terraform_show_json (rcs : List ShowRC) : List ShowRC :=
  rcs.map markTagsOnly

mutual

/-- Python `repr` of a parsed JSON value (string escaping not
modelled). -/
def pyRepr (v : Value) : String :=
  match v with
  | .null => "None"
  | .bool b => if b then "True" else "False"
  | .num n => toString n
  | .str s => "'" ++ s ++ "'"
  | .list items => "[" ++ joinSep ", " (reprItems items) ++ "]"
  | .dict entries => "\x7b" ++ joinSep ", " (reprEntries entries) ++ "\x7d"

/-- Python repr of the elements of a list. -/
def reprItems : List Value → List String
  | [] => []
  | v :: rest => pyRepr v :: reprItems rest

/-- Python repr of the entries of a mapping. -/
def reprEntries : List (String × Value) → List String
  | [] => []
  | (k, v) :: rest => ("'" ++ k ++ "': " ++ pyRepr v) :: reprEntries rest

end

/-- Python `str` / f-string interpolation of a parsed JSON value (used to
build the grouping key `f"{before_val}→{after_val}"`). -/
def pyStr (v : Value) : String :=
  match v with
  | .str s => s
  | _ => pyRepr v

/-- One `(before, after, count)` grouping of the tag aggregator. -/
structure PairCount where
  before : Value
  after : Value
  count : Nat

/-- Accumulator of `extract_all_tag_changes`: per tag key, per
`f"{before}→{after}"` grouping key, the recorded pair and its count, in
first-seen order (Python dict insertion order). -/
def TagAcc := List (String × List (String × PairCount))

/-- Record one observed change of a tag key: find (or append) the
grouping for `ck` and increment its count, keeping the first-seen
before/after pair (tf_out_to_md.py lines 164-177). -/
def bumpPair (inner : List (String × PairCount)) (ck : String) (bv av : Value) :
    List (String × PairCount) :=
  match inner with
  | [] => [(ck, ⟨bv, av, 1⟩)]
  | (k, pc) :: rest =>
      if k = ck then (k, { pc with count := pc.count + 1 }) :: rest
      else (k, pc) :: bumpPair rest ck bv av

/-- Record one observed change under its tag key. -/
def bumpTag (acc : TagAcc) (tagKey ck : String) (bv av : Value) : TagAcc :=
  match acc with
  | [] => [(tagKey, bumpPair [] ck bv av)]
  | (k, inner) :: rest =>
      if k = tagKey then (k, bumpPair inner ck bv av) :: rest
      else (k, inner) :: bumpTag rest tagKey ck bv av

/-- Process one tag namespace (`tags` or `tags_all`) of one record: every
key of either mapping whose values differ is recorded
(tf_out_to_md.py lines 156-177). -/
def processField (acc : TagAcc) (bt aft : List (String × Value)) : TagAcc :=
  ((bt.map Prod.fst ++ aft.map Prod.fst).dedup).foldl
    (fun acc k =>
      let bv := (dget bt k).getD .null
      let av := (dget aft k).getD .null
      if vbeq bv av then acc
      else bumpTag acc k (pyStr bv ++ "→" ++ pyStr av) bv av)
    acc

/-- The `tags_all` leg of the per-record loop: processed only when both
sides are mappings. -/
def processTagsAll (acc : TagAcc) (b a : List (String × Value)) : TagAcc :=
  match (dget b "tags_all").getD (.dict []), (dget a "tags_all").getD (.dict []) with
  | .dict bt, .dict aft => processField acc bt aft
  | _, _ => acc

/-- The mapping entries of a value; records with `tags_only = true`
always carry mapping `before`/`after` (established by
`parse_terraform_show_json`), so the default is never taken on reachable
inputs. -/
def asDict : Value → List (String × Value)
  | .dict entries => entries
  | _ => []

/-- The per-record loop of `extract_all_tag_changes` (tf_out_to_md.py
lines 145-181): the `tags` namespace is processed first; the `break`
skipping `tags_all` fires only when both `tags` sides are mappings and
the before-side is non-empty. -/
def processRecord (acc : TagAcc) (rc : ShowRC) : TagAcc :=
  let b := asDict rc.change.before
  let a := asDict rc.change.after
  match (dget b "tags").getD (.dict []), (dget a "tags").getD (.dict []) with
  | .dict bt, .dict aft =>
      let acc1 := processField acc bt aft
      if !bt.isEmpty then acc1
      else processTagsAll acc1 b a
  | _, _ => processTagsAll acc b a

/-- One entry of the flattened aggregate: either a single pair with its
count and the common mark, or the full list of pair groupings. -/
structure FlatEntry where
  isCommon : Bool
  single : Option PairCount
  changes : Option (List PairCount)

/-- The flattening step of `extract_all_tag_changes` (tf_out_to_md.py
lines 183-210) for one tag key. -/
def flattenEntry (total : Nat) (changes : List (String × PairCount)) : FlatEntry :=
  match changes with
  | [(_, ci)] =>
      if ci.count = total then
        { isCommon := true, single := some ⟨ci.before, ci.after, total⟩, changes := none }
      else
        { isCommon := false, single := some ci, changes := none }
  | _ => { isCommon := false, single := none, changes := some (changes.map Prod.snd) }

/-- Function `extract_all_tag_changes` (tf_out_to_md.py lines 129-210): aggregate
tag changes over the records marked `tags_only`. -/
def extract_all_tag_changes (rcs : List ShowRC) : List (String × FlatEntry) :=
  let tors := rcs.filter (fun rc => rc.tags_only)
  if tors.isEmpty then []
  else
    let total := tors.length
    (tors.foldl processRecord ([] : TagAcc)).map (fun p => (p.1, flattenEntry total p.2))

/-- A JSON object, abstracted to its key set, as far as the format
detector inspects it.  A line whose JSON parse succeeds but yields a
non-object is not modelled (the Python code would raise on it). -/
structure JsonObj where
  keys : List String
deriving DecidableEq

/-- One input line as seen by the format detector: blank (stripping
leaves nothing), not valid JSON, or a parsed JSON object. -/
inductive RawLine where
  | blank
  | malformed
  | parsed (o : JsonObj)
deriving DecidableEq

/-- The two classification tests of `detect_json_format`
(tf_out_to_md.py lines 719-730) applied to a parsed first line. -/
def classifyObj (o : JsonObj) : String :=
  if "@level" ∈ o.keys ∨ "type" ∈ o.keys then "streaming"
  else if "terraform_version" ∈ o.keys ∨ "resource_changes" ∈ o.keys then "show"
  else "unknown"

/-- Function `detect_json_format` (tf_out_to_md.py lines 714-730): reads the
first line of the file (an empty file reads as a blank line). -/
def detect_json_format : List RawLine → String
  | [] => "unknown"
  | .parsed o :: _ => classifyObj o
  | _ :: _ => "unknown"

/-- The dispatch in `main` (tf_out_to_md.py lines 794-803): the
full-document parser runs only on "show"; every other detector answer,
"unknown" included, goes to the line-oriented parser. -/
def selectParseMode (fmt : String) : String :=
  if fmt = "show" then "full-document" else "line-oriented"

/-- Modelled from the spec (claim C6): the detector is said to read the
first NON-BLANK line and classify from it.  This definition follows the
claim wording, for comparison with `detect_json_format`. -/
def detectFormatSpec (lines : List RawLine) : String :=
  match lines.dropWhile (fun l => l == RawLine.blank) with
  | [] => "unknown"
  | .parsed o :: _ => classifyObj o
  | _ :: _ => "unknown"

/-- One line-oriented event, abstracted to the JSON fields the parser
reads (`@level`, `type`, `terraform`, `change.action`, `change.reason`,
`change.resource.*`); a missing field is `none`. -/
structure Event where
  atLevel : Option String
  etype : Option String
  terraform : Option String
  changeAction : Option String
  changeReason : Option String
  resourceAddr : Option String
  resourceModule : Option String
  resourceType : Option String
  resourceName : Option String

/-- A ChangeRecord built by the line-oriented parser
(tf_out_to_md.py lines 638-653).  `before`/`after` and the sensitivity
and unknown maps are always the empty mapping in this format. -/
structure LineRC where
  address : String
  moduleName : String
  rtype : String
  rname : String
  actions : Option (List String)
  before : Value
  after : Value
  after_unknown : Value
  before_sensitive : Value
  after_sensitive : Value
  action_reason : Option String
  tags_only : Bool

/-- Mutable state of the line-oriented parsing loop: the version, the
error events, the drift addresses (collected but never read back), and
the address-keyed map of planned changes in insertion order. -/
structure StreamState where
  terraform_version : Option String
  errors : List Event
  drift_addrs : List String
  planned : List (String × LineRC)

/-- Insert-or-overwrite into an insertion-ordered map (Python
`planned_changes[addr] = resource_change`): an existing key keeps its
position and takes the new value, a new key is appended. -/
def upsert (m : List (String × LineRC)) (k : String) (v : LineRC) :
    List (String × LineRC) :=
  match m with
  | [] => [(k, v)]
  | (k0, v0) :: rest =>
      if k0 = k then (k0, v) :: rest else (k0, v0) :: upsert rest k v

/-- The record built for a non-read `planned_change` event. -/
def plannedRecord (ev : Event) : LineRC :=
  { address := ev.resourceAddr.getD ""
    moduleName := ev.resourceModule.getD ""
    rtype := ev.resourceType.getD ""
    rname := ev.resourceName.getD ""
    actions := ev.changeAction.map (fun a => [a])
    before := .dict []
    after := .dict []
    after_unknown := .dict []
    before_sensitive := .dict []
    after_sensitive := .dict []
    action_reason := ev.changeReason
    tags_only := false }

/-- The error-extraction `if` at the head of the loop body of
`parse_terraform_json_lines` (tf_out_to_md.py lines 600-601). -/
def noteError (st : StreamState) (ev : Event) : StreamState :=
  if ev.atLevel = some "error" ∧ ev.etype = some "diagnostic" then
    { st with errors := st.errors ++ [ev] }
  else st

/-- The `if`/`elif` chain on the event type in the loop body of
`parse_terraform_json_lines` (tf_out_to_md.py lines 603-655). -/
def stepEventCore (st1 : StreamState) (ev : Event) : StreamState :=
  if ev.etype = some "version" then
    { st1 with terraform_version := ev.terraform }
  else if ev.etype = some "resource_drift" then
    if ev.resourceAddr.getD "" ≠ "" ∧ ev.resourceAddr.getD "" ∉ st1.drift_addrs then
      { st1 with drift_addrs := st1.drift_addrs ++ [ev.resourceAddr.getD ""] }
    else st1
  else if ev.etype = some "planned_change" then
    if ev.changeAction = some "read" then st1
    else { st1 with planned := upsert st1.planned (ev.resourceAddr.getD "") (plannedRecord ev) }
  else st1

/-- The loop body of `parse_terraform_json_lines`
(tf_out_to_md.py lines 595-655) for one successfully parsed event. -/
def stepEvent (st : StreamState) (ev : Event) : StreamState :=
  stepEventCore (noteError st ev) ev

/-- One input line of the streaming file: `none` is a blank or malformed
line (both are skipped), `some ev` a parsed event. -/
def stepLine (st : StreamState) (l : Option Event) : StreamState :=
  match l with
  | none => st
  | some ev => stepEvent st ev

/-- The plan data assembled by the line-oriented parser. -/
structure LinePlan where
  terraform_version : Option String
  resource_changes : List LineRC
  errors : List Event

/-- Function `parse_terraform_json_lines` (tf_out_to_md.py lines 575-663). -/
def parse_terraform_json_lines (lines : List (Option Event)) : LinePlan :=
  let st := lines.foldl stepLine
    { terraform_version := none, errors := [], drift_addrs := [], planned := [] }
  { terraform_version := st.terraform_version
    resource_changes := st.planned.map Prod.snd
    errors := st.errors }

/-- An entry of `output_changes` in the full-document format. -/
structure OutputChange where
  actions : List String
  sensitive : Bool
  before : Value
  after : Value

/-- The lines rendered for one output change
(tf_out_to_md.py lines 536-555): the labelled heading always, then the
redacted value if sensitive, the after value if newly set, the
before/after pair if changed, and nothing if unchanged. -/
def renderOneOutput (name : String) (oc : OutputChange) : List String :=
  ["### " ++ get_action_emoji oc.actions ++ " `" ++ name ++ "`", ""] ++
  (if oc.sensitive then ["Value: `(sensitive)`"]
   else if isNull oc.before && !isNull oc.after then
     ["Value: " ++ pyStrip (format_value oc.after 0)]
   else if vbeq oc.before oc.after = false then
     ["Before: " ++ pyStrip (format_value oc.before 0),
      "After: " ++ pyStrip (format_value oc.after 0)]
   else []) ++ [""]

/-- The output-changes section of `convert_plan_to_markdown`
(tf_out_to_md.py lines 531-555). -/
def render_output_changes (ocs : List (String × OutputChange)) : List String :=
  if ocs.isEmpty then []
  else ["## Output Changes", ""] ++ (ocs.map (fun p => renderOneOutput p.1 p.2)).flatten

/-- A full-document resource change whose action list is
`["update", "read"]` and whose only changed attribute is `tags`. -/
def updateReadRecord : ShowRC :=
  { address := "aws_instance.example"
    change :=
      { actions := ["update", "read"]
        before := .dict [("tags", .str "a")]
        after := .dict [("tags", .str "b")]
        after_unknown := [] }
    tags_only := false }

/-- A tags-only update that adds the tag `Name` starting from an empty
`tags` mapping, with `tags_all` mirroring `tags` exactly, as providers
emit it. -/
def mirroredTagAddRecord : ShowRC :=
  { address := "aws_instance.example"
    change :=
      { actions := ["update"]
        before := .dict [("tags", .dict []), ("tags_all", .dict [])]
        after := .dict [("tags", .dict [("Name", .str "a")]),
                        ("tags_all", .dict [("Name", .str "a")])]
        after_unknown := [] }
    tags_only := false }

/-- A streaming `planned_change` event with action `create`. -/
def createEvent : Event :=
  { atLevel := none
    etype := some "planned_change"
    terraform := none
    changeAction := some "create"
    changeReason := none
    resourceAddr := some "aws_instance.example"
    resourceModule := none
    resourceType := some "aws_instance"
    resourceName := some "example" }

/-- A streaming `planned_change` event with action `update` for the same
address as `createEvent`. -/
def updateEvent : Event :=
  { atLevel := none
    etype := some "planned_change"
    terraform := none
    changeAction := some "update"
    changeReason := none
    resourceAddr := some "aws_instance.example"
    resourceModule := none
    resourceType := some "aws_instance"
    resourceName := some "example" }

/-- A streaming `planned_change` event with action `read` (a data-source
refresh). -/
def readEvent : Event :=
  { atLevel := none
    etype := some "planned_change"
    terraform := none
    changeAction := some "read"
    changeReason := none
    resourceAddr := some "data.aws_ami.latest"
    resourceModule := none
    resourceType := some "aws_ami"
    resourceName := some "latest" }

/-- The invariant of the streaming parse loop: planned-change map keys
are distinct and each stored record address equals its key. -/
def PlannedInv (st : StreamState) : Prop :=
  (st.planned.map Prod.fst).Nodup ∧ ∀ p ∈ st.planned, p.2.address = p.1

@[simp]
theorem string_join_nil : String.join ([] : List String) = "" := rfl

@[simp]
theorem string_nil_append (s : String) : "" ++ s = s := by
  cases s
  rfl

theorem isNull_iff (v : Value) : isNull v = true ↔ v = .null := by
  cases v <;> simp [isNull]

theorem vbeq_null_left (v : Value) : vbeq .null v = true ↔ v = .null := by
  cases v <;> simp [vbeq]

/-- Claim C2: the summary-count loop assigns each resource change to
exactly one of the seven buckets, with first-match-wins precedence:
create+delete → replace; create → create; delete → delete; update with
tagsOnly → update-tags-only; update → update; read → read; otherwise
no-op. -/
theorem C2_classifier_precedence (acts : List String) (t : Bool) :
    (("create" ∈ acts ∧ "delete" ∈ acts) → classify acts t = .replace) ∧
    (("create" ∈ acts ∧ "delete" ∉ acts) → classify acts t = .create) ∧
    (("create" ∉ acts ∧ "delete" ∈ acts) → classify acts t = .delete) ∧
    (("create" ∉ acts ∧ "delete" ∉ acts ∧ "update" ∈ acts ∧ t = true) →
      classify acts t = .update_tags_only) ∧
    (("create" ∉ acts ∧ "delete" ∉ acts ∧ "update" ∈ acts ∧ t = false) →
      classify acts t = .update) ∧
    (("create" ∉ acts ∧ "delete" ∉ acts ∧ "update" ∉ acts ∧ "read" ∈ acts) →
      classify acts t = .read) ∧
    (("create" ∉ acts ∧ "delete" ∉ acts ∧ "update" ∉ acts ∧ "read" ∉ acts) →
      classify acts t = .noop) ∧
    (∃! b : Bucket, classify acts t = b) := by
  refine ⟨fun h => ?_, fun h => ?_, fun h => ?_, fun h => ?_, fun h => ?_, fun h => ?_,
    fun h => ?_, ⟨classify acts t, rfl, fun y hy => hy.symm⟩⟩
  · simp [classify, h.1, h.2]
  · simp [classify, h.1, h.2]
  · simp [classify, h.1, h.2]
  · simp [classify, h.1, h.2.1, h.2.2.1, h.2.2.2]
  · simp [classify, h.1, h.2.1, h.2.2.1, h.2.2.2]
  · simp [classify, h.1, h.2.1, h.2.2.1, h.2.2.2]
  · simp [classify, h.1, h.2.1, h.2.2.1, h.2.2.2]

theorem C2_witness :
    classify ["read", "create", "delete"] false = Bucket.replace ∧
    classify ["update"] true = Bucket.update_tags_only :=
  ⟨(C2_classifier_precedence ["read", "create", "delete"] false).1 ⟨by decide, by decide⟩,
   (C2_classifier_precedence ["update"] true).2.2.2.1 ⟨by decide, by decide, by decide, rfl⟩⟩

/-- Claim C10, counterexample: the claim says the REPLACE label is never
returned, but the input `["replace"]` reaches the replace branch through
its `"replace" in actions` disjunct. -/
theorem C10_counterexample : get_action_emoji ["replace"] = "🔁 **REPLACE**" := by
  decide

/-- Claim C10, amended: a list containing "create" is labelled CREATE
even when "delete" is also present, and the REPLACE label is returned
exactly when the list contains the literal "replace" and none of
"create", "delete", "update". -/
theorem C10_output_label (actions : List String) :
    ("create" ∈ actions → get_action_emoji actions = "➕ **CREATE**") ∧
    (get_action_emoji actions = "🔁 **REPLACE**" ↔
      ("replace" ∈ actions ∧ "create" ∉ actions ∧ "delete" ∉ actions ∧ "update" ∉ actions)) := by
  constructor
  · intro h
    simp [get_action_emoji, h]
  · by_cases hc : "create" ∈ actions
    · simp [get_action_emoji, hc]
    · by_cases hd : "delete" ∈ actions
      · simp [get_action_emoji, hc, hd]
      · by_cases hu : "update" ∈ actions
        · simp [get_action_emoji, hc, hd, hu]
        · by_cases hr : "replace" ∈ actions
          · simp [get_action_emoji, hc, hd, hu, hr]
          · by_cases hread : "read" ∈ actions <;>
              simp [get_action_emoji, hc, hd, hu, hr, hread]

theorem C10_witness : get_action_emoji ["create", "delete"] = "➕ **CREATE**" :=
  (C10_output_label ["create", "delete"]).1 (by decide)

/-- Claim C5: the attribute differ emits no line when the after value is
absent (null or an empty sequence/mapping), and no line when before and
after are both present and unequal but the after value formats to the
empty string. -/
theorem C5_differ_suppression (before after : Value) (key : String) (ind : Nat) :
    (isAbsent after = true → format_change before after key ind = []) ∧
    (isAbsent before = false → isAbsent after = false → vbeq before after = false →
      pyStrip (format_value after 0) = "" → format_change before after key ind = []) := by
  constructor
  · intro h
    cases hb : isAbsent before <;> simp [format_change, h, hb]
  · intro h1 h2 h3 h4
    by_cases hbs : pyStrip (format_value before 0) = "" <;>
      simp [format_change, h1, h2, h3, h4, hbs]

theorem C5_witness :
    format_change (.str "x") (.str "") "attr" 0 = [] ∧
    format_change (.bool true) .null "attr" 0 = [] := by
  constructor
  · exact (C5_differ_suppression (.str "x") (.str "") "attr" 0).2 (by simp [isAbsent])
      (by simp [isAbsent]) (by simp [vbeq]) (by simp [format_value, pyStrip])
  · exact (C5_differ_suppression (.bool true) .null "attr" 0).1 (by simp [isAbsent])

/-- Claim C4: per tag key in the aggregate over the tags-only records:
one distinct pair with count equal to the total is marked common with
that count; one distinct pair with a smaller count is marked not common
with that pair and count; several distinct pairs are marked not common
with the full pair list retained. -/
theorem C4_tag_key_classification (total : Nat) (ck : String) (p : PairCount)
    (cs : List (String × PairCount)) (rcs : List ShowRC) :
    (p.count = total → flattenEntry total [(ck, p)] =
      { isCommon := true, single := some ⟨p.before, p.after, total⟩, changes := none }) ∧
    (p.count < total → flattenEntry total [(ck, p)] =
      { isCommon := false, single := some p, changes := none }) ∧
    (2 ≤ cs.length → flattenEntry total cs =
      { isCommon := false, single := none, changes := some (cs.map Prod.snd) }) ∧
    (rcs.filter (fun rc => rc.tags_only) ≠ [] →
      extract_all_tag_changes rcs =
        ((rcs.filter (fun rc => rc.tags_only)).foldl processRecord []).map
          (fun q => (q.1, flattenEntry (rcs.filter (fun rc => rc.tags_only)).length q.2))) := by
  refine ⟨fun h => ?_, fun h => ?_, fun h => ?_, fun h => ?_⟩
  · simp [flattenEntry, h]
  · simp [flattenEntry, Nat.ne_of_lt h]
  · cases cs with
    | nil => simp at h
    | cons c1 tl =>
      cases tl with
      | nil => simp at h
      | cons c2 tl2 => simp [flattenEntry]
  · have hne : (rcs.filter (fun rc => rc.tags_only)).isEmpty = false := by
      cases hf : rcs.filter (fun rc => rc.tags_only) with
      | nil => exact absurd hf h
      | cons a l => simp
    simp [extract_all_tag_changes, hne]

theorem C4_witness :
    flattenEntry 3 [("a→b", ⟨.str "a", .str "b", 3⟩)] =
      { isCommon := true, single := some ⟨.str "a", .str "b", 3⟩, changes := none } ∧
    flattenEntry 3 [("a→b", ⟨.str "a", .str "b", 2⟩)] =
      { isCommon := false, single := some ⟨.str "a", .str "b", 2⟩, changes := none } ∧
    flattenEntry 1 [("a→b", ⟨.str "a", .str "b", 1⟩), ("a→c", ⟨.str "a", .str "c", 1⟩)] =
      { isCommon := false, single := none,
        changes := some [⟨.str "a", .str "b", 1⟩, ⟨.str "a", .str "c", 1⟩] } := by
  refine ⟨(C4_tag_key_classification 3 "a→b" ⟨.str "a", .str "b", 3⟩ [] []).1 rfl,
    (C4_tag_key_classification 3 "a→b" ⟨.str "a", .str "b", 2⟩ [] []).2.1 (by decide), ?_⟩
  have h := (C4_tag_key_classification 1 "x" ⟨.null, .null, 0⟩
    [("a→b", ⟨.str "a", .str "b", 1⟩), ("a→c", ⟨.str "a", .str "c", 1⟩)] []).2.2.1 (by decide)
  simpa using h

/-- Claim C8, counterexample: a six-element sequence formats to
"List with 6 items", not "Sequence with 6 items" as the claim states. -/
theorem C8_counterexample :
    format_value (.list [.num 1, .num 2, .num 3, .num 4, .num 5, .num 6]) 0 =
      "List with 6 items" ∧
    "List with 6 items" ≠ "Sequence with 6 items" := by
  exact ⟨rfl, by decide⟩

theorem formatItems_eq (xs : List Value) :
    formatItems xs = xs.map (fun v => pyStrip (format_value v 0)) := by
  induction xs with
  | nil => rfl
  | cons v rest ih => simp [formatItems, ih]

/-- Claim C8, amended: a sequence longer than five elements formats to
"List with N items"; the empty sequence formats to the empty string;
otherwise the elements are formatted recursively with no indentation,
stripped, and joined with ", ". -/
theorem C8_sequence_summary (xs : List Value) :
    (5 < xs.length →
      format_value (.list xs) 0 = "List with " ++ toString xs.length ++ " items") ∧
    (format_value (.list ([] : List Value)) 0 = "") ∧
    (xs ≠ [] → xs.length ≤ 5 →
      format_value (.list xs) 0 = joinSep ", " (xs.map (fun v => pyStrip (format_value v 0)))) := by
  refine ⟨fun h => ?_, by simp [format_value], fun h1 h2 => ?_⟩
  · have hne : xs.isEmpty = false := by
      cases xs with
      | nil => simp at h
      | cons a l => simp
    simp [format_value, hne, h]
  · have hne : xs.isEmpty = false := by
      cases xs with
      | nil => exact absurd rfl h1
      | cons a l => simp
    have hlt : ¬(5 < xs.length) := Nat.not_lt.mpr h2
    simp [format_value, hne, hlt, formatItems_eq]

theorem C8_witness :
    format_value (.list [.num 1, .str "ab"]) 0 = "`1`, `ab`" ∧
    format_value (.list [.null]) 0 = "" := by
  have h1 := (C8_sequence_summary [.num 1, .str "ab"]).2.2 (by simp) (by decide)
  have h2 := (C8_sequence_summary [.null]).2.2 (by simp) (by decide)
  constructor
  · rw [h1]
    rfl
  · rw [h2]
    rfl

/-- Claim C6, counterexample: on an input whose first line is blank and
whose second line is a parsed object with a "type" field, the detector
returns "unknown", while the claim (read the first non-blank line) says
"streaming". -/
theorem C6_counterexample :
    detect_json_format [RawLine.blank, RawLine.parsed ⟨["type"]⟩] = "unknown" ∧
    detectFormatSpec [RawLine.blank, RawLine.parsed ⟨["type"]⟩] = "streaming" ∧
    detect_json_format [RawLine.blank, RawLine.parsed ⟨["type"]⟩] ≠
      detectFormatSpec [RawLine.blank, RawLine.parsed ⟨["type"]⟩] := by
  refine ⟨by decide, by decide, by decide⟩

/-- Claim C6, amended: the detector reads only the first line (blank or
malformed first lines give "unknown" even when later lines would
classify); a parsed first line with a severity-level or type field gives
"streaming", else a version or resource-changes field gives "show", else
"unknown"; and the caller treats "unknown" the same as "streaming"
(line-oriented). -/
theorem C6_format_detection (o : JsonObj) (rest : List RawLine) :
    (detect_json_format [] = "unknown") ∧
    (detect_json_format (RawLine.blank :: rest) = "unknown") ∧
    (detect_json_format (RawLine.malformed :: rest) = "unknown") ∧
    (("@level" ∈ o.keys ∨ "type" ∈ o.keys) →
      detect_json_format (RawLine.parsed o :: rest) = "streaming") ∧
    (("@level" ∉ o.keys ∧ "type" ∉ o.keys ∧
        ("terraform_version" ∈ o.keys ∨ "resource_changes" ∈ o.keys)) →
      detect_json_format (RawLine.parsed o :: rest) = "show") ∧
    (("@level" ∉ o.keys ∧ "type" ∉ o.keys ∧ "terraform_version" ∉ o.keys ∧
        "resource_changes" ∉ o.keys) →
      detect_json_format (RawLine.parsed o :: rest) = "unknown") ∧
    (selectParseMode "unknown" = selectParseMode "streaming") := by
  refine ⟨rfl, rfl, rfl, fun h => ?_, fun h => ?_, fun h => ?_, by decide⟩
  · simp [detect_json_format, classifyObj, h]
  · simp [detect_json_format, classifyObj, h.1, h.2.1, h.2.2]
  · simp [detect_json_format, classifyObj, h.1, h.2.1, h.2.2.1, h.2.2.2]

theorem C6_witness :
    detect_json_format [RawLine.parsed ⟨["type"]⟩] = "streaming" :=
  (C6_format_detection ⟨["type"]⟩ []).2.2.2.1 (Or.inr (by decide))

/-- Claim C1, counterexample: a resource change with actions
`["update", "read"]` — an action set that is not exactly `{update}` —
still gets `tagsOnly = true` from the parser, because the code only
requires `update` present and `create`/`delete` absent. -/
theorem C1_counterexample :
    (markTagsOnly updateReadRecord).tags_only = true ∧
    "read" ∈ updateReadRecord.change.actions ∧
    updateReadRecord.change.actions ≠ ["update"] := by
  exact ⟨rfl, by decide, by decide⟩

/-- Claim C1, amended: for mapping before/after, `tagsOnly` is true iff
`update` is among the actions, neither `create` nor `delete` is, and the
changed attribute keys (excluding unknown-at-apply keys) form a
non-empty subset of tags / tags_all; when before or after is not a
mapping the flag is false. -/
theorem C1_tags_only_flag (actions : List String) (b a au : List (String × Value)) (v : Value) :
    (computeTagsOnly actions (.dict b) (.dict a) au = true ↔
      ("update" ∈ actions ∧ "create" ∉ actions ∧ "delete" ∉ actions ∧
       changedAttrs b a au ≠ [] ∧
       ∀ k ∈ changedAttrs b a au, k = "tags" ∨ k = "tags_all")) ∧
    ((∀ es, v ≠ Value.dict es) →
      ∀ (aft : Value) (au2 : List (String × Value)), computeTagsOnly actions v aft au2 = false) ∧
    ((∀ es, v ≠ Value.dict es) →
      ∀ (bfr au2 : List (String × Value)),
        computeTagsOnly actions (.dict bfr) v au2 = false) := by
  refine ⟨?_, fun hv aft au2 => ?_, fun hv bfr au2 => ?_⟩
  · by_cases hcond : ("update" ∈ actions ∧ "create" ∉ actions ∧ "delete" ∉ actions)
    · simp [computeTagsOnly, hcond, List.all_eq_true]
    · have hfalse : computeTagsOnly actions (.dict b) (.dict a) au = false := by
        simp [computeTagsOnly, hcond]
      rw [hfalse]
      simp only [Bool.false_eq_true, false_iff]
      intro hcon
      exact hcond ⟨hcon.1, hcon.2.1, hcon.2.2.1⟩
  · cases v <;> first
      | exact absurd rfl (hv _)
      | (cases aft <;> simp [computeTagsOnly])
  · cases v <;> first
      | exact absurd rfl (hv _)
      | simp [computeTagsOnly]

theorem C1_witness :
    computeTagsOnly ["update"] (.dict [("tags", .str "a")]) (.dict [("tags", .str "b")]) []
      = true ∧
    computeTagsOnly ["update"] (.str "x") (.dict []) [] = false := by
  have hch : changedAttrs [("tags", .str "a")] [("tags", .str "b")] [] = ["tags"] := rfl
  constructor
  · exact (C1_tags_only_flag ["update"] [("tags", .str "a")] [("tags", .str "b")] [] .null).1.mpr
      ⟨by decide, by decide, by decide, by rw [hch]; simp,
       by rw [hch]; intro k hk; simp at hk; simp [hk]⟩
  · exact (C1_tags_only_flag ["update"] [] [] [] (.str "x")).2.1
      (fun es h => Value.noConfusion h) (.dict []) []

/-- Claim C3 (code bug in `extract_all_tag_changes`): one tags-only
record that adds the tag `Name` starting from an empty `tags` mapping,
with `tags_all` mirroring `tags`, is counted twice for `Name` — once from
`tags` and once from `tags_all` — because the break that skips `tags_all`
fires only when the before-tags mapping is non-empty.  With one record
(T = 1) the aggregate reports count 2. -/
theorem C3_double_count :
    ((parse_terraform_show_json [mirroredTagAddRecord]).filter
        (fun rc => rc.tags_only)).length = 1 ∧
    extract_all_tag_changes (parse_terraform_show_json [mirroredTagAddRecord]) =
      [("Name", { isCommon := false, single := some ⟨Value.null, Value.str "a", 2⟩,
                  changes := none })] := by
  exact ⟨rfl, rfl⟩

theorem stepEvent_read (st : StreamState) (ev : Event)
    (h1 : ev.etype = some "planned_change") (h2 : ev.changeAction = some "read") :
    stepEvent st ev = st := by
  simp [stepEvent, noteError, stepEventCore, h1, h2]

theorem mem_upsert_fst (m : List (String × LineRC)) (k : String) (v : LineRC) (x : String) :
    x ∈ (upsert m k v).map Prod.fst ↔ x ∈ m.map Prod.fst ∨ x = k := by
  induction m with
  | nil => simp [upsert]
  | cons hd tl ih =>
    obtain ⟨k0, v0⟩ := hd
    by_cases hk : k0 = k
    · subst hk
      simp [upsert]
      tauto
    · simp [upsert, hk, ih]
      tauto

theorem upsert_fst_nodup (m : List (String × LineRC)) (k : String) (v : LineRC)
    (h : (m.map Prod.fst).Nodup) : ((upsert m k v).map Prod.fst).Nodup := by
  induction m with
  | nil => simp [upsert]
  | cons hd tl ih =>
    obtain ⟨k0, v0⟩ := hd
    simp only [List.map_cons, List.nodup_cons] at h
    by_cases hk : k0 = k
    · subst hk
      simpa [upsert] using h
    · simp only [upsert, if_neg hk, List.map_cons, List.nodup_cons]
      refine ⟨?_, ih h.2⟩
      rw [mem_upsert_fst]
      push_neg
      exact ⟨h.1, hk⟩

theorem mem_upsert (m : List (String × LineRC)) (k : String) (v : LineRC)
    (x : String × LineRC) (hx : x ∈ upsert m k v) : x ∈ m ∨ x = (k, v) := by
  induction m with
  | nil => simpa [upsert] using hx
  | cons hd tl ih =>
    obtain ⟨k0, v0⟩ := hd
    by_cases hk : k0 = k
    · subst hk
      simp only [upsert, if_pos rfl] at hx
      rcases List.mem_cons.mp hx with h | h
      · exact Or.inr h
      · exact Or.inl (List.mem_cons_of_mem _ h)
    · simp only [upsert, if_neg hk] at hx
      rcases List.mem_cons.mp hx with h | h
      · exact Or.inl (h ▸ List.mem_cons_self _ _)
      · rcases ih h with h2 | h2
        · exact Or.inl (List.mem_cons_of_mem _ h2)
        · exact Or.inr h2

theorem noteError_inv (st : StreamState) (ev : Event) (h : PlannedInv st) :
    PlannedInv (noteError st ev) := by
  unfold noteError
  split <;> exact h

theorem stepEventCore_inv (st1 : StreamState) (ev : Event) (h : PlannedInv st1) :
    PlannedInv (stepEventCore st1 ev) := by
  unfold stepEventCore
  split_ifs
  · exact h
  · exact h
  · exact h
  · exact h
  · refine ⟨upsert_fst_nodup _ _ _ h.1, ?_⟩
    intro p hp
    rcases mem_upsert _ _ _ p hp with hmem | heq
    · exact h.2 p hmem
    · rw [heq]
      rfl
  · exact h

theorem stepLine_inv (st : StreamState) (l : Option Event) (h : PlannedInv st) :
    PlannedInv (stepLine st l) := by
  cases l with
  | none => exact h
  | some ev => exact stepEventCore_inv _ ev (noteError_inv st ev h)

theorem foldl_stepLine_inv (lines : List (Option Event)) (st : StreamState)
    (h : PlannedInv st) : PlannedInv (lines.foldl stepLine st) := by
  induction lines generalizing st with
  | nil => exact h
  | cons l rest ih => exact ih _ (stepLine_inv st l h)

/-- Claim C7: the line-oriented parser ignores read planned-change
events entirely, deduplicates by address with last-write-wins (a create
then an update for one address yields exactly the update record), and
leaves every address unique in the final document. -/
theorem C7_line_oriented_dedup :
    (∀ (pre post : List (Option Event)) (ev : Event),
        ev.etype = some "planned_change" → ev.changeAction = some "read" →
        parse_terraform_json_lines (pre ++ some ev :: post) =
          parse_terraform_json_lines (pre ++ post)) ∧
    ((parse_terraform_json_lines [some createEvent, some updateEvent]).resource_changes.map
        (fun r => (r.address, r.actions)) = [("aws_instance.example", some ["update"])]) ∧
    (∀ lines : List (Option Event),
      (((parse_terraform_json_lines lines).resource_changes).map (fun r => r.address)).Nodup) := by
  refine ⟨fun pre post ev h1 h2 => ?_, by rfl, fun lines => ?_⟩
  · simp only [parse_terraform_json_lines, List.foldl_append, List.foldl_cons]
    rw [show stepLine (List.foldl stepLine
        { terraform_version := none, errors := [], drift_addrs := [], planned := [] } pre)
        (some ev) = List.foldl stepLine
        { terraform_version := none, errors := [], drift_addrs := [], planned := [] } pre from
      stepEvent_read _ ev h1 h2]
  · have hinv := foldl_stepLine_inv lines
      { terraform_version := none, errors := [], drift_addrs := [], planned := [] }
      ⟨List.nodup_nil, by simp⟩
    show ((((lines.foldl stepLine _).planned).map Prod.snd).map (fun r => r.address)).Nodup
    rw [List.map_map]
    have hmap : ((lines.foldl stepLine
        { terraform_version := none, errors := [], drift_addrs := [], planned := [] }).planned).map
          ((fun r => r.address) ∘ Prod.snd) =
        ((lines.foldl stepLine
        { terraform_version := none, errors := [], drift_addrs := [], planned := [] }).planned).map
          Prod.fst :=
      List.map_congr_left (fun p hp => hinv.2 p hp)
    rw [hmap]
    exact hinv.1

theorem C7_witness :
    parse_terraform_json_lines [some readEvent] = parse_terraform_json_lines [] :=
  C7_line_oriented_dedup.1 [] [] readEvent rfl rfl

/-- Claim C9, counterexample: an unchanged output (before equal to
after) is not omitted from the output-changes section — its labelled
heading is still rendered, only its value lines are dropped. -/
theorem C9_counterexample :
    render_output_changes
        [("foo", { actions := ["no-op"], sensitive := false,
                   before := .str "x", after := .str "x" })] =
      ["## Output Changes", "", "### ⚪ **NO-OP** `foo`", "", ""] ∧
    "### ⚪ **NO-OP** `foo`" ∈ render_output_changes
        [("foo", { actions := ["no-op"], sensitive := false,
                   before := .str "x", after := .str "x" })] := by
  have h : render_output_changes
      [("foo", { actions := ["no-op"], sensitive := false,
                 before := .str "x", after := .str "x" })] =
      ["## Output Changes", "", "### ⚪ **NO-OP** `foo`", "", ""] := rfl
  exact ⟨h, by rw [h]; decide⟩

/-- Claim C9, amended: sensitive outputs are redacted (the fixed marker
replaces their values); unchanged outputs keep their labelled heading in
the section but render no value lines. -/
theorem C9_output_section (name : String) (oc : OutputChange) :
    (oc.sensitive = true → renderOneOutput name oc =
      ["### " ++ get_action_emoji oc.actions ++ " `" ++ name ++ "`", "",
       "Value: `(sensitive)`", ""]) ∧
    (oc.sensitive = false → vbeq oc.before oc.after = true →
      renderOneOutput name oc =
        ["### " ++ get_action_emoji oc.actions ++ " `" ++ name ++ "`", "", ""]) := by
  constructor
  · intro h
    simp [renderOneOutput, h]
  · intro h1 h2
    have hcase : (isNull oc.before && !isNull oc.after) = false := by
      by_cases hb : isNull oc.before = true
      · have hbn : oc.before = .null := (isNull_iff _).mp hb
        have han : oc.after = .null := by
          rw [hbn] at h2
          exact (vbeq_null_left _).mp h2
        simp [hb, han, isNull]
      · have hb2 : isNull oc.before = false := by
          revert hb
          cases isNull oc.before <;> simp
        simp [hb2]
    simp [renderOneOutput, h1, hcase, h2]

theorem C9_witness :
    renderOneOutput "secret_output" ⟨["update"], true, .str "a", .str "b"⟩ =
      ["### 🔄 **UPDATE** `secret_output`", "", "Value: `(sensitive)`", ""] ∧
    renderOneOutput "same_output" ⟨["no-op"], false, .num 1, .num 1⟩ =
      ["### ⚪ **NO-OP** `same_output`", "", ""] := by
  constructor
  · have h := (C9_output_section "secret_output" ⟨["update"], true, .str "a", .str "b"⟩).1 rfl
    rw [h]
    decide
  · have h := (C9_output_section "same_output" ⟨["no-op"], false, .num 1, .num 1⟩).2 rfl
      (by simp [vbeq])
    rw [h]
    decide

end TfPlan
